import Mathlib

/-!
# CerviHealth — verification of the data-access and helper layer

Shallow embedding of the CerviHealth mobile application's service layer:
the Firestore data-access functions (`src/services/firestore.js`), the
authentication helpers (`src/services/auth.js`) and the Cloudinary
URL-construction logic of `ImageEnhancementScreen.tsx`.

JavaScript values stored in documents are modelled by the inductive type
`JSValue`; a document is a finite map from field names to values; the
backend state is a record of the five collections used by the app.  Every
service function is embedded as an explicit state-passing function that
also records the list of backend calls it performs; a fault oracle says
which backend calls fail, which lets us reason about partial failures.
-/

namespace CerviHealth

/-- A JavaScript value as stored in a Firestore document field.
`time` models both `serverTimestamp()` and `Timestamp.now()` as the
backend clock value at the moment of the write. -/
inductive JSValue where
  | str  : String → JSValue
  | int  : Int → JSValue
  | bool : Bool → JSValue
  | null : JSValue
  | time : Nat → JSValue
  | arr  : List JSValue → JSValue
  | obj  : List (String × JSValue) → JSValue

/-- JavaScript truthiness: `""`, `0`, `false` and `null`/`undefined` are
falsy; every object (arrays, plain objects, Timestamps) is truthy. -/
def JSValue.falsy : JSValue → Bool
  | .str s  => s = ""
  | .int n  => n = 0
  | .bool b => !b
  | .null   => true
  | .time _ => false
  | .arr _  => false
  | .obj _  => false

/-- A document (or a plain JS object used as update data): a partial map
from field names to values; `none` models an absent field (`undefined`). -/
abbrev Obj : Type := String → Option JSValue

/-- The empty object `{}`. -/
def Obj.empty : Obj := fun _ => none

/-- Build an object from a literal field list (keys assumed distinct, as
in the object literals of the source). -/
def objOf (l : List (String × JSValue)) : Obj :=
  fun k => (l.find? (fun p => p.1 = k)).map (fun p => p.2)

/-- JS object spread `{ ...o, ...d }`: fields of `d` win. -/
def Obj.merge (o d : Obj) : Obj :=
  fun k => match d k with
    | some v => some v
    | none => o k

/-- JS `x || fallback` applied to a possibly-absent field value. -/
def jsOr (x : Option JSValue) (fallback : JSValue) : JSValue :=
  match x with
  | some v => if v.falsy then fallback else v
  | none => fallback

/-! ## The Firestore backend model -/

/-- A collection: the list of (document id, document) pairs in creation
order. -/
abbrev Coll : Type := List (String × Obj)

/-- Look a document up by id. -/
def Coll.find (l : Coll) (id : String) : Option Obj :=
  (List.find? (fun p => p.1 = id) l).map (fun p => p.2)

/-- Overwrite or create document `id` (the write performed by `setDoc`
and, after a merge, by `updateDoc`). -/
def Coll.set (l : Coll) (id : String) (o : Obj) : Coll :=
  (id, o) :: List.filter (fun p => p.1 ≠ id) l

/-- Append a freshly created document (the write performed by `addDoc`). -/
def Coll.add (l : Coll) (id : String) (o : Obj) : Coll :=
  l ++ [(id, o)]

/-- The names of the five collections the application uses. -/
inductive CollName where
  | users | patients | screenings | appointments | notifications
deriving DecidableEq

/-- The backend state: the five collections, the counter from which
`addDoc` ids are generated, the backend clock (`serverTimestamp()` /
`Timestamp.now()`) and the device clock's current year
(`new Date().getFullYear()`). -/
structure FS where
  users : Coll
  patients : Coll
  screenings : Coll
  appointments : Coll
  notifications : Coll
  nextId : Nat
  now : Nat
  year : Nat

/-- Read a collection by name. -/
def FS.getColl (fs : FS) : CollName → Coll
  | .users => fs.users
  | .patients => fs.patients
  | .screenings => fs.screenings
  | .appointments => fs.appointments
  | .notifications => fs.notifications

/-- Replace a collection by name. -/
def FS.setColl (fs : FS) : CollName → Coll → FS
  | .users, l => { fs with users := l }
  | .patients, l => { fs with patients := l }
  | .screenings, l => { fs with screenings := l }
  | .appointments, l => { fs with appointments := l }
  | .notifications, l => { fs with notifications := l }

/-- A backend call, as recorded in the run trace. -/
inductive Call where
  | readDoc (c : CollName) (id : String)
  | readColl (c : CollName)
  | writeDoc (c : CollName) (id : String)
  | createDoc (c : CollName)
deriving DecidableEq

/-- The state threaded through a run of a service function: the backend
state plus the trace of backend calls attempted so far. -/
structure RunState where
  fs : FS
  calls : List Call

/-- A fault oracle: `f n = true` means the backend call with index `n`
in the trace fails (the promise rejects); a failed call performs no
write. -/
def Faults : Type := Nat → Bool

/-- The fault-free oracle. -/
def noFaults : Faults := fun _ => false

/-- Result of running a service function: the value or thrown error,
plus the final state. -/
abbrev Res (α : Type) := Except String α × RunState

/-- Record an attempted backend call in the trace. -/
def RunState.record (st : RunState) (c : Call) : RunState :=
  { st with calls := st.calls ++ [c] }

/-- The error a failed backend call rejects with. -/
def backendError : String := "backend failure"

/-- The error thrown synchronously by `doc(firestore, coll, id)` when
the id passed is not a string (e.g. `undefined`). -/
def invalidRefError : String := "invalid document reference"

/-- `getDoc(doc(firestore, c, id))` together with the `.exists()` /
`.data()` inspection: returns the document when present.  Path-segment
validation of `doc()` is not modelled here; the call sites where a
non-string id can reach `doc()` handle that case themselves. -/
def primGetDoc (f : Faults) (st : RunState) (c : CollName) (id : String) :
    Res (Option Obj) :=
  if f st.calls.length then
    (.error backendError, st.record (.readDoc c id))
  else
    (.ok ((st.fs.getColl c).find id), st.record (.readDoc c id))

/-- `getDocs` on a whole collection (the only query shape the embedded
functions below execute). -/
def primGetAll (f : Faults) (st : RunState) (c : CollName) : Res Coll :=
  if f st.calls.length then
    (.error backendError, st.record (.readColl c))
  else
    (.ok (st.fs.getColl c), st.record (.readColl c))

/-- `setDoc(doc(firestore, c, id), o)`: overwrite or create. -/
def primSetDoc (f : Faults) (st : RunState) (c : CollName) (id : String)
    (o : Obj) : Res Unit :=
  if f st.calls.length then
    (.error backendError, st.record (.writeDoc c id))
  else
    (.ok (), { st.record (.writeDoc c id) with
               fs := st.fs.setColl c ((st.fs.getColl c).set id o) })

/-- `updateDoc(doc(firestore, c, id), fields)`: merge the given fields
into the existing document; rejects with not-found when the document
does not exist. -/
def primUpdateDoc (f : Faults) (st : RunState) (c : CollName) (id : String)
    (fields : Obj) : Res Unit :=
  if f st.calls.length then
    (.error backendError, st.record (.writeDoc c id))
  else
    match (st.fs.getColl c).find id with
    | none => (.error "not-found", st.record (.writeDoc c id))
    | some d =>
      (.ok (), { st.record (.writeDoc c id) with
                 fs := st.fs.setColl c ((st.fs.getColl c).set id (d.merge fields)) })

/-- The auto-generated id of the `n`-th `addDoc` in a run. -/
def autoId (n : Nat) : String := "auto-" ++ toString n

/-- `addDoc(collection(firestore, c), o)`: append a new document under a
fresh auto-generated id and return the id. -/
def primAddDoc (f : Faults) (st : RunState) (c : CollName) (o : Obj) :
    Res String :=
  if f st.calls.length then
    (.error backendError, st.record (.createDoc c))
  else
    let id := autoId st.fs.nextId
    (.ok id, { st.record (.createDoc c) with
               fs := { st.fs.setColl c ((st.fs.getColl c).add id o) with
                       nextId := st.fs.nextId + 1 } })

/-- `serverTimestamp()` (and `Timestamp.now()`): the backend clock value
at the moment of the write. -/
def serverTimestamp (fs : FS) : JSValue := .time fs.now

/-- Rendering of a possibly-absent field value inside a JS template
literal: `${x}` on `undefined` gives `"undefined"`. -/
def displayValue : Option JSValue → String
  | some (.str s) => s
  | some (.int n) => toString n
  | some (.bool b) => if b then "true" else "false"
  | some .null => "null"
  | some (.time _) => "Timestamp"
  | some (.arr _) => "Array"
  | some (.obj _) => "Object"
  | none => "undefined"

/-! ## Data-access service functions (`src/services/firestore.js`) -/

/-- JS `String.prototype.padStart(n, c)`: pad on the left up to length
`n`. -/
def padStart (s : String) (n : Nat) (c : Char) : String :=
  String.mk (List.replicate (n - s.length) c) ++ s

/-- Embeds `generatePatientId` (lines 22–37): fetches the whole
`patients` collection, lets `count` be its size plus one, and returns
`PT-<year>-<count zero-padded to 5 digits>`. -/
def generatePatientId (f : Faults) (st : RunState) : Res String :=
  match primGetAll f st .patients with
  | (.error e, st') => (.error e, st')
  | (.ok querySnapshot, st') =>
    let count := querySnapshot.length + 1
    let paddedCount := padStart (toString count) 5 '0'
    (.ok ("PT-" ++ toString st'.fs.year ++ "-" ++ paddedCount), st')

/-- Embeds `saveUserData` (lines 48–81): for a `Patient` first generate
a patient id (otherwise `null`), `setDoc` the user document, and for a
`Patient` additionally `addDoc` a patient record. -/
def saveUserData (f : Faults) (st : RunState)
    (userId name email phoneNumber role : String) : Res Unit :=
  let pidRes : Res JSValue :=
    if role = "Patient" then
      match generatePatientId f st with
      | (.error e, st') => (.error e, st')
      | (.ok pid, st') => (.ok (.str pid), st')
    else
      (.ok .null, st)
  match pidRes with
  | (.error e, st') => (.error e, st')
  | (.ok patientId, st') =>
    match primSetDoc f st' .users userId (objOf [
        ("name", .str name),
        ("email", .str email),
        ("phoneNumber", .str phoneNumber),
        ("role", .str role),
        ("patientId", patientId),
        ("createdAt", serverTimestamp st'.fs),
        ("updatedAt", serverTimestamp st'.fs)]) with
    | (.error e, st1) => (.error e, st1)
    | (.ok _, st1) =>
      if role = "Patient" then
        match primAddDoc f st1 .patients (objOf [
            ("name", .str name),
            ("phoneNumber", .str phoneNumber),
            ("patientId", patientId),
            ("userId", .str userId),
            ("createdAt", serverTimestamp st1.fs),
            ("updatedAt", serverTimestamp st1.fs)]) with
        | (.error e, st2) => (.error e, st2)
        | (.ok _, st2) => (.ok (), st2)
      else
        (.ok (), st1)

/-- Embeds `getUserData` (lines 88–99): one `getDoc` on `users`,
returning the data or `null`. -/
def getUserData (f : Faults) (st : RunState) (userId : String) :
    Res (Option Obj) :=
  primGetDoc f st .users userId

/-- Embeds `updateUserData` (lines 107–119): one `updateDoc` on the
user document with `{ ...data, updatedAt: serverTimestamp() }`, then
return `true`. -/
def updateUserData (f : Faults) (st : RunState) (userId : String)
    (data : Obj) : Res Bool :=
  match primUpdateDoc f st .users userId
      (data.merge (objOf [("updatedAt", serverTimestamp st.fs)])) with
  | (.error e, st') => (.error e, st')
  | (.ok _, st') => (.ok true, st')

/-- The `get` member of the Query value built by the modular
`query(...)` helper.  The modular firebase/firestore API the source
imports (`query`, `where`, `limit`, `getDocs`, …) returns a plain
`Query` value that exposes no `get` method — queries are executed with
the separate `getDocs` function — so this member is absent. -/
def queryGetMember : Option (Faults → RunState → Res Coll) := none

/-- Embeds `checkUserExists` (lines 126–139): it invokes `.get()` on
the Query value; that member is absent, so the member access yields
`undefined`, the call throws a TypeError before any backend call is
made, and the catch block rethrows it. -/
def checkUserExists (f : Faults) (st : RunState) (email : String) :
    Res Bool :=
  match queryGetMember with
  | some get =>
    match get f st with
    | (.error e, st') => (.error e, st')
    | (.ok querySnapshot, st') =>
      (.ok (!(querySnapshot.filter
          (fun p => match p.2 "email" with
            | some (.str e) => e == email
            | _ => false)).isEmpty), st')
  | none => (.error "TypeError: get is not a function", st)

/-- Embeds `savePatient` (lines 155–170): one `addDoc` on `patients`
with `{ ...patientData, createdAt: Timestamp.now(), updatedAt:
Timestamp.now() }`, returning the new document id. -/
def savePatient (f : Faults) (st : RunState) (patientData : Obj) :
    Res String :=
  let patientDataWithDefaults := patientData.merge (objOf [
      ("createdAt", serverTimestamp st.fs),
      ("updatedAt", serverTimestamp st.fs)])
  primAddDoc f st .patients patientDataWithDefaults

/-- Embeds `getPatient` (lines 177–191): one `getDoc` on `patients`,
returning `{ id: doc.id, ...doc.data() }` or `null`. -/
def getPatient (f : Faults) (st : RunState) (patientId : String) :
    Res (Option Obj) :=
  match primGetDoc f st .patients patientId with
  | (.error e, st') => (.error e, st')
  | (.ok none, st') => (.ok none, st')
  | (.ok (some d), st') =>
    (.ok (some ((objOf [("id", .str patientId)]).merge d)), st')

/-- Embeds `createNotification` (lines 284–301): one `addDoc` on
`notifications`, storing the five arguments together with `read: false`
and `createdAt: serverTimestamp()`. -/
def createNotification (f : Faults) (st : RunState) (recipientId : JSValue)
    (type title message : String) (data : JSValue) : Res String :=
  primAddDoc f st .notifications (objOf [
      ("recipientId", recipientId),
      ("type", .str type),
      ("title", .str title),
      ("message", .str message),
      ("data", data),
      ("read", .bool false),
      ("createdAt", serverTimestamp st.fs)])

/-- Embeds `createScreeningRecord` (lines 358–387): `addDoc` the
screening with timestamps; then, when `screeningData.patientId` is
truthy, fetch the patient and, when the patient exists, create a
`NewReport` notification for them.  `getPatient` is reached through
`doc(firestore, 'patients', patientId)`, which throws when the id is
not a string. -/
def createScreeningRecord (f : Faults) (st : RunState)
    (screeningData : Obj) : Res String :=
  match primAddDoc f st .screenings (screeningData.merge (objOf [
      ("createdAt", serverTimestamp st.fs),
      ("updatedAt", serverTimestamp st.fs)])) with
  | (.error e, st1) => (.error e, st1)
  | (.ok docId, st1) =>
    match screeningData "patientId" with
    | some (.str pid) =>
      if pid = "" then (.ok docId, st1)
      else
        match getPatient f st1 pid with
        | (.error e, st2) => (.error e, st2)
        | (.ok none, st2) => (.ok docId, st2)
        | (.ok (some _), st2) =>
          match createNotification f st2 (.str pid) "NewReport"
              "New Report Available"
              "Your cervical screening report has been uploaded."
              (.obj [("screeningId", .str docId)]) with
          | (.error e, st3) => (.error e, st3)
          | (.ok _, st3) => (.ok docId, st3)
    | some v =>
      if v.falsy then (.ok docId, st1) else (.error invalidRefError, st1)
    | none => (.ok docId, st1)

/-- Embeds `getScreeningRecord` (lines 390–401): one `getDoc` on
`screenings`, returning the data or `null`. -/
def getScreeningRecord (f : Faults) (st : RunState) (screeningId : String) :
    Res (Option Obj) :=
  primGetDoc f st .screenings screeningId

/-- Embeds `updateScreeningImage` (lines 432–444): one `updateDoc` on
the screening with the adjusted image URL and `updatedAt`, then return
`true`. -/
def updateScreeningImage (f : Faults) (st : RunState)
    (screeningId adjustedImageUrl : String) : Res Bool :=
  match primUpdateDoc f st .screenings screeningId (objOf [
      ("adjustedImageUrl", .str adjustedImageUrl),
      ("updatedAt", serverTimestamp st.fs)]) with
  | (.error e, st') => (.error e, st')
  | (.ok _, st') => (.ok true, st')

/-- The healthcare-worker notification step of `updateScreeningReview`
(lines 472–481): when `screeningData.healthcareWorkerId` is truthy,
create a `ReviewCompleted` notification for them. -/
def notifyReviewCompletedHCW (f : Faults) (st : RunState)
    (screeningId patientName : String) (sd : Obj) : Res Bool :=
  match sd "healthcareWorkerId" with
  | some hv =>
    if hv.falsy then (.ok true, st)
    else
      match createNotification f st hv "ReviewCompleted" "Review Completed"
          ("The screening report for " ++ patientName ++
            " has been reviewed.")
          (.obj [("screeningId", .str screeningId)]) with
      | (.error e, st4) => (.error e, st4)
      | (.ok _, st4) => (.ok true, st4)
  | none => (.ok true, st)

/-- The patient notification step of `updateScreeningReview` (lines
483–492): when `screeningData.patientId` is truthy (here: the non-empty
string `pid`), create a `ReviewCompleted` notification for the
patient. -/
def notifyReviewCompletedPatient (f : Faults) (st : RunState)
    (screeningId pid : String) : Res Bool :=
  if pid = "" then (.ok true, st)
  else
    match createNotification f st (.str pid) "ReviewCompleted"
        "Review Completed"
        "Your screening report has been reviewed by the doctor."
        (.obj [("screeningId", .str screeningId)]) with
    | (.error e, st5) => (.error e, st5)
    | (.ok _, st5) => (.ok true, st5)

/-- The notification phase of `updateScreeningReview` (lines 465–495):
re-read the screening, fetch the patient (`doc()` throws when
`screeningData.patientId` is not a string), then notify the healthcare
worker and the patient; finally return `true`. -/
def screeningReviewNotifications (f : Faults) (st : RunState)
    (screeningId : String) : Res Bool :=
  match getScreeningRecord f st screeningId with
  | (.error e, st2) => (.error e, st2)
  | (.ok none, st2) => (.ok true, st2)
  | (.ok (some sd), st2) =>
    match sd "patientId" with
    | some (.str pid) =>
      match getPatient f st2 pid with
      | (.error e, st3) => (.error e, st3)
      | (.ok pd, st3) =>
        match notifyReviewCompletedHCW f st3 screeningId
            (match pd with
             | some p => displayValue (p "name")
             | none => "the patient") sd with
        | (.error e, st4) => (.error e, st4)
        | (.ok _, st4) => notifyReviewCompletedPatient f st4 screeningId pid
    | _ => (.error invalidRefError, st2)

/-- Embeds `updateScreeningReview` (lines 454–500): `updateDoc` the
review fields and `status: 'Reviewed'` on the screening, then run the
notification phase. -/
def updateScreeningReview (f : Faults) (st : RunState)
    (screeningId reviewStatus doctorComments doctorId : String) : Res Bool :=
  match primUpdateDoc f st .screenings screeningId (objOf [
      ("reviewStatus", .str reviewStatus),
      ("doctorComments", .str doctorComments),
      ("doctorId", .str doctorId),
      ("status", .str "Reviewed"),
      ("updatedAt", serverTimestamp st.fs)]) with
  | (.error e, st1) => (.error e, st1)
  | (.ok _, st1) => screeningReviewNotifications f st1 screeningId

/-- Embeds `createAppointment` (lines 570–584): one `addDoc` on
`appointments` with `type: 'screening'` and timestamps imposed over the
caller's data. -/
def createAppointment (f : Faults) (st : RunState) (appointmentData : Obj) :
    Res String :=
  primAddDoc f st .appointments (appointmentData.merge (objOf [
      ("type", .str "screening"),
      ("createdAt", serverTimestamp st.fs),
      ("updatedAt", serverTimestamp st.fs)]))

/-- Embeds `updateAppointmentStatus` (lines 674–687): one `updateDoc`
on the appointment with `{ status, ...additionalData, updatedAt:
serverTimestamp() }`, then return `true`. -/
def updateAppointmentStatus (f : Faults) (st : RunState)
    (appointmentId status : String) (additionalData : Obj) : Res Bool :=
  match primUpdateDoc f st .appointments appointmentId
      (((objOf [("status", .str status)]).merge additionalData).merge
        (objOf [("updatedAt", serverTimestamp st.fs)])) with
  | (.error e, st') => (.error e, st')
  | (.ok _, st') => (.ok true, st')

/-- The patient notification step of `createDoctorAppointment` (lines
871–880): when `appointmentData.patientId` is truthy, create an
`APPOINTMENT_UPDATE` notification for the patient. -/
def notifyDoctorAppointmentPatient (f : Faults) (st : RunState)
    (appointmentData : Obj) (docId : String) : Res String :=
  match appointmentData "patientId" with
  | some pv =>
    if pv.falsy then (.ok docId, st)
    else
      match createNotification f st pv "APPOINTMENT_UPDATE"
          "Appointment Requested"
          "Your appointment request with a doctor has been submitted."
          (.obj [("appointmentId", .str docId)]) with
      | (.error e, st3) => (.error e, st3)
      | (.ok _, st3) => (.ok docId, st3)
  | none => (.ok docId, st)

/-- Embeds `createDoctorAppointment` (lines 849–887): `addDoc` the
appointment with `type: 'doctor'`, `status: 'Pending'` and timestamps
imposed over the caller's data; then create notifications for the
doctor and the patient when those ids are truthy; return the new id. -/
def createDoctorAppointment (f : Faults) (st : RunState)
    (appointmentData : Obj) : Res String :=
  match primAddDoc f st .appointments (appointmentData.merge (objOf [
      ("type", .str "doctor"),
      ("status", .str "Pending"),
      ("createdAt", serverTimestamp st.fs),
      ("updatedAt", serverTimestamp st.fs)])) with
  | (.error e, st1) => (.error e, st1)
  | (.ok docId, st1) =>
    match appointmentData "doctorId" with
    | some dv =>
      if dv.falsy then notifyDoctorAppointmentPatient f st1 appointmentData docId
      else
        match createNotification f st1 dv "APPOINTMENT_REQUEST"
            "New Appointment Request"
            ("Patient " ++ displayValue (appointmentData "patientName") ++
              " has requested an appointment.")
            (.obj [("appointmentId", .str docId)]) with
        | (.error e, st2) => (.error e, st2)
        | (.ok _, st2) => notifyDoctorAppointmentPatient f st2 appointmentData docId
    | none => notifyDoctorAppointmentPatient f st1 appointmentData docId

/-- Embeds `getPatientWithDefaults` (lines 1004–1028): one `getDoc` on
`patients`; when the document exists, return the id and the documented
fallback values computed with `||`, with the raw document data spread
over them last; otherwise return `null`. -/
def getPatientWithDefaults (f : Faults) (st : RunState)
    (patientId : String) : Res (Option Obj) :=
  match primGetDoc f st .patients patientId with
  | (.error e, st') => (.error e, st')
  | (.ok none, st') => (.ok none, st')
  | (.ok (some data), st') =>
    (.ok (some ((objOf [
        ("id", .str patientId),
        ("name", jsOr (data "name") (.str "Unknown")),
        ("age", jsOr (data "age") (.int 0)),
        ("phoneNumber", jsOr (data "phoneNumber") (.str "Not provided")),
        ("email", jsOr (data "email") (.str "Not provided")),
        ("address", jsOr (data "address") (.str "Not provided")),
        ("bloodGroup", jsOr (data "bloodGroup") (.str "Not specified")),
        ("menstrualStatus", jsOr (data "menstrualStatus") (.str "Not specified")),
        ("symptoms", jsOr (data "symptoms") (.arr [])),
        ("medicalHistory", jsOr (data "medicalHistory") (.str "No history provided"))
        ]).merge data)), st')

/-! ## Image enhancement (`src/screens/ImageEnhancementScreen.tsx`) -/

/-- The four slider values of the enhancement screen.  Every slider has
integer step 1, so the values are integers (brightness, contrast and
saturation range over -100..100, sharpness over 0..100). -/
structure CloudinaryTransformation where
  brightness : Int
  contrast : Int
  saturation : Int
  sharpness : Int

/-- The `transformationString.endsWith(',')` test of the preview-URL
effect: the string's last character is a comma. -/
def endsWithComma (s : String) : Bool := s.data.getLast? = some ','

/-- `transformationString.slice(0, -1)`: drop the last character. -/
def dropLastChar (s : String) : String := String.mk s.data.dropLast

/-- Embeds the transformation-string construction of the preview-URL
effect (lines 83–105): append `e_<name>:<value>,` for each slider not
at its default value 0, in the fixed order brightness, contrast,
saturation, sharpness, then strip the trailing comma. -/
def transformationString (t : CloudinaryTransformation) : String :=
  let s := ""
  let s := if t.brightness ≠ 0 then
    s ++ "e_brightness:" ++ toString t.brightness ++ "," else s
  let s := if t.contrast ≠ 0 then
    s ++ "e_contrast:" ++ toString t.contrast ++ "," else s
  let s := if t.saturation ≠ 0 then
    s ++ "e_saturation:" ++ toString t.saturation ++ "," else s
  let s := if t.sharpness ≠ 0 then
    s ++ "e_sharpen:" ++ toString t.sharpness ++ "," else s
  if endsWithComma s then dropLastChar s else s

/-- Fuel-based worker for `jsSplit`: scan the character list, cutting a
chunk at every occurrence of the (non-empty) separator. -/
def jsSplitAux (sep : List Char) : Nat → List Char → List Char →
    List (List Char)
  | 0, s, cur => [cur ++ s]
  | _ + 1, [], cur => [cur]
  | fuel + 1, c :: rest, cur =>
    if sep.isPrefixOf (c :: rest) then
      cur :: jsSplitAux sep fuel ((c :: rest).drop sep.length) []
    else
      jsSplitAux sep fuel rest (cur ++ [c])

/-- JS `String.prototype.split(sep)` for a non-empty string separator:
the list of chunks between consecutive occurrences of `sep`. -/
def jsSplit (s sep : String) : List String :=
  (jsSplitAux sep.data (s.data.length + 1) s.data []).map String.mk

/-- Embeds the preview-URL computation (lines 107–121): when the
transformation string is non-empty and the original URL splits on
`/upload/` into exactly two parts, rebuild the URL with the
transformation string inserted after `/upload/`; otherwise keep the
original URL. -/
def previewUrl (originalImageUrl : String) (t : CloudinaryTransformation) :
    String :=
  let ts := transformationString t
  if ts ≠ "" then
    let urlParts := jsSplit originalImageUrl "/upload/"
    if urlParts.length = 2 then
      urlParts[0]! ++ "/upload/" ++ ts ++ "/" ++ urlParts[1]!
    else
      originalImageUrl
  else
    originalImageUrl

/-- Embeds `handleConfirm`'s choice of stored URL (lines 143–150): with
any slider away from 0 store the computed preview URL, otherwise the
original URL. -/
def finalImageUrl (originalImageUrl : String)
    (t : CloudinaryTransformation) : String :=
  let hasTransformations := t.brightness ≠ 0 ∨ t.contrast ≠ 0 ∨
    t.saturation ≠ 0 ∨ t.sharpness ≠ 0
  if hasTransformations then previewUrl originalImageUrl t
  else originalImageUrl

/-- Specification-side description of the transformation string: the
list of `e_<name>:<value>` entries for exactly the sliders that are not
0, in the fixed order brightness, contrast, saturation, sharpness. -/
def transformationParams (t : CloudinaryTransformation) : List String :=
  (if t.brightness ≠ 0 then ["e_brightness:" ++ toString t.brightness] else []) ++
  (if t.contrast ≠ 0 then ["e_contrast:" ++ toString t.contrast] else []) ++
  (if t.saturation ≠ 0 then ["e_saturation:" ++ toString t.saturation] else []) ++
  (if t.sharpness ≠ 0 then ["e_sharpen:" ++ toString t.sharpness] else [])

/-! ## Authentication helpers (`src/services/auth.js`) -/

/-- The Firebase auth handle: only the current user (by uid) matters to
the embedded functions. -/
structure AuthState where
  currentUser : Option String

/-- The result object of a successful `confirm` call: `{ user: ... }`. -/
structure ConfirmResult where
  user : Option String

/-- The confirmation object returned by `sendOTP`:
`{ confirm: async (code) => ..., user: auth.currentUser }`. -/
structure Confirmation where
  confirm : String → Except String ConfirmResult
  user : Option String

/-- Embeds `sendOTP` (`auth.js` lines 33–59).  The phone number is
normalised to E.164 (a leading `+` is prepended when missing) but only
logged; the returned object simulates OTP verification: `confirm`
resolves with the current user exactly when the submitted code is the
hardcoded string `"123456"`, and otherwise throws
`"Invalid verification code"`. -/
def sendOTP (auth : AuthState) (phoneNumber : String) : Confirmation :=
  let _normalised :=
    if phoneNumber.startsWith "+" then phoneNumber else "+" ++ phoneNumber
  { confirm := fun code =>
      if code = "123456" then
        .ok { user := auth.currentUser }
      else
        .error "Invalid verification code"
    user := auth.currentUser }

/-- Embeds `verifyOTP` (`auth.js` lines 67–75): awaits
`confirmation.confirm(otp)` and returns `result.user`, propagating any
error thrown by `confirm`. -/
def verifyOTP (confirmation : Confirmation) (otp : String) :
    Except String (Option String) :=
  match confirmation.confirm otp with
  | .ok result => .ok result.user
  | .error e => .error e

end CerviHealth

namespace CerviHealth

/-! ## Concrete states used by the witnesses -/

/-- A concrete appointment document. -/
def sampleAppointment : Obj := objOf [
  ("patientId", .str "p1"),
  ("patientName", .str "Meena"),
  ("healthcareWorkerId", .str "h1"),
  ("status", .str "Pending"),
  ("requestedDate", .time 5)]

/-- A concrete patient document whose `email` field is present but
falsy (the empty string) and whose `address` field is absent. -/
def samplePatient : Obj := objOf [
  ("name", .str "Meena"),
  ("userId", .str "u1"),
  ("email", .str ""),
  ("age", .int 0)]

/-- A concrete screening document with status `Uploaded`. -/
def sampleScreening : Obj := objOf [
  ("patientId", .str "p1"),
  ("healthcareWorkerId", .str "h1"),
  ("status", .str "Uploaded"),
  ("imageUrl", .str "https://res.cloudinary.com/demo/image/upload/v1/s.jpg")]

/-- A concrete backend state. -/
def sampleFS : FS where
  users := [("u1", objOf [("name", .str "Asha"), ("role", .str "Doctor")])]
  patients := [("p1", samplePatient)]
  screenings := [("s1", sampleScreening)]
  appointments := [("a1", sampleAppointment)]
  notifications := []
  nextId := 0
  now := 100
  year := 2026

/-- A second backend state with the same number of patient documents
and the same year as `sampleFS` but different patient contents. -/
def sampleFS2 : FS where
  users := []
  patients := [("px", Obj.empty)]
  screenings := []
  appointments := []
  notifications := []
  nextId := 7
  now := 3
  year := 2026

/-! ## Helper lemmas -/

theorem str_data_comma : ("," : String).data = [','] := rfl

theorem str_data_empty : ("" : String).data = [] := rfl

theorem endsWithComma_concat (a : String) : endsWithComma (a ++ ",") = true := by
  simp [endsWithComma, String.data_append, str_data_comma, List.getLast?_concat]

theorem dropLastChar_concat (a : String) : dropLastChar (a ++ ",") = a := by
  apply String.ext
  simp [dropLastChar, String.data_append, str_data_comma, List.dropLast_concat]

theorem endsWithComma_empty : endsWithComma "" = false := by
  simp [endsWithComma, str_data_empty]

theorem append_lit_ne_empty {lit : String} (hlit : lit.length ≠ 0)
    (x y : String) : x ++ lit ++ y ≠ "" := by
  intro h
  have h2 := congrArg String.length h
  simp [String.length_append] at h2
  omega

theorem lit_append_ne_empty {lit : String} (hlit : lit.length ≠ 0)
    (y : String) : lit ++ y ≠ "" := by
  intro h
  have h2 := congrArg String.length h
  simp [String.length_append] at h2
  omega

/-- The transformation string built by the preview-URL effect is the
comma-separated join of exactly the non-default parameters, in the fixed
slider order. -/
theorem transformationString_eq_intercalate (t : CloudinaryTransformation) :
    transformationString t = String.intercalate "," (transformationParams t) := by
  by_cases hb : t.brightness = 0 <;> by_cases hc : t.contrast = 0 <;>
    by_cases hs : t.saturation = 0 <;> by_cases hsh : t.sharpness = 0 <;>
    (simp only [transformationString, transformationParams, hb, hc, hs, hsh,
      ne_eq, not_true_eq_false, not_false_eq_true, ite_true, ite_false,
      endsWithComma_concat, dropLastChar_concat, endsWithComma_empty,
      List.append_nil, List.nil_append, List.singleton_append]
     simp [String.intercalate, String.intercalate.go, ← String.append_assoc,
      String.empty_append])

/-- With at least one slider away from 0, the transformation string is
non-empty. -/
theorem transformationString_ne_empty (t : CloudinaryTransformation)
    (hnz : ¬(t.brightness = 0 ∧ t.contrast = 0 ∧ t.saturation = 0 ∧
      t.sharpness = 0)) : transformationString t ≠ "" := by
  by_cases hb : t.brightness = 0 <;> by_cases hc : t.contrast = 0 <;>
    by_cases hs : t.saturation = 0 <;> by_cases hsh : t.sharpness = 0 <;>
    first
    | (simp only [transformationString, hb, hc, hs, hsh, ne_eq,
        not_true_eq_false, not_false_eq_true, ite_true, ite_false,
        endsWithComma_concat, dropLastChar_concat, endsWithComma_empty,
        eq_self_iff_true, if_true]
       first
       | exact append_lit_ne_empty (by decide) _ _
       | exact lit_append_ne_empty (by decide) _)
    | exact absurd ⟨hb, hc, hs, hsh⟩ hnz

theorem find?_and_ne (l : Coll) (id id' : String) (h : id' ≠ id) :
    List.find? (fun a => !decide (a.1 = id) && decide (a.1 = id')) l =
    List.find? (fun p => decide (p.1 = id')) l := by
  congr 1
  funext a
  by_cases ha : a.1 = id'
  · have hna : ¬(a.1 = id) := fun hh => h (ha.symm.trans hh)
    simp [ha, hna, h]
  · simp [ha]

@[simp] theorem Coll.find_set_self (l : Coll) (id : String) (o : Obj) :
    (l.set id o).find id = some o := by
  simp [Coll.find, Coll.set, List.find?]

theorem Coll.find_set_ne (l : Coll) (id id' : String) (o : Obj)
    (h : id' ≠ id) : (l.set id o).find id' = l.find id' := by
  simp [Coll.find, Coll.set, List.find?_cons, Ne.symm h,
    find?_and_ne l id id' h]

@[simp] theorem Coll.getLast?_add (l : Coll) (id : String) (o : Obj) :
    (l.add id o).getLast? = some (id, o) := by
  simp [Coll.add]

@[simp] theorem Coll.length_add (l : Coll) (id : String) (o : Obj) :
    (l.add id o).length = l.length + 1 := by
  simp [Coll.add]

@[simp] theorem FS.getColl_setColl_same (fs : FS) (c : CollName) (l : Coll) :
    (fs.setColl c l).getColl c = l := by
  cases c <;> rfl

theorem FS.getColl_setColl_ne (fs : FS) (c c' : CollName) (l : Coll)
    (h : c ≠ c') : (fs.setColl c' l).getColl c = fs.getColl c := by
  cases c <;> cases c' <;> first | rfl | exact absurd rfl h

@[simp] theorem FS.nextId_setColl (fs : FS) (c : CollName) (l : Coll) :
    (fs.setColl c l).nextId = fs.nextId := by
  cases c <;> rfl

@[simp] theorem FS.now_setColl (fs : FS) (c : CollName) (l : Coll) :
    (fs.setColl c l).now = fs.now := by
  cases c <;> rfl

@[simp] theorem FS.year_setColl (fs : FS) (c : CollName) (l : Coll) :
    (fs.setColl c l).year = fs.year := by
  cases c <;> rfl

@[simp] theorem noFaults_eq (n : Nat) : noFaults n = false := rfl

@[simp] theorem RunState.fs_record (st : RunState) (c : Call) :
    (st.record c).fs = st.fs := rfl

@[simp] theorem RunState.calls_record (st : RunState) (c : Call) :
    (st.record c).calls = st.calls ++ [c] := rfl

@[simp] theorem objOf_nil (k : String) : objOf [] k = none := rfl

theorem objOf_cons (a : String) (v : JSValue) (l : List (String × JSValue))
    (k : String) :
    objOf ((a, v) :: l) k = if a = k then some v else objOf l k := by
  by_cases h : a = k <;> simp [objOf, List.find?_cons, h]

theorem Obj.merge_apply_of_some {d : Obj} {k : String} {v : JSValue}
    (h : d k = some v) (o : Obj) : (o.merge d) k = some v := by
  simp [Obj.merge, h]

theorem Obj.merge_apply_of_none {d : Obj} {k : String}
    (h : d k = none) (o : Obj) : (o.merge d) k = o k := by
  simp [Obj.merge, h]

/-! ### Which collections each backend step can touch -/

@[simp] theorem primGetDoc_snd_fs (f : Faults) (st : RunState) (c : CollName)
    (id : String) : (primGetDoc f st c id).2.fs = st.fs := by
  unfold primGetDoc
  split <;> rfl

@[simp] theorem primGetAll_snd_fs (f : Faults) (st : RunState) (c : CollName) :
    (primGetAll f st c).2.fs = st.fs := by
  unfold primGetAll
  split <;> rfl

@[simp] theorem primAddDoc_notifications_screenings (f : Faults)
    (st : RunState) (o : Obj) :
    (primAddDoc f st .notifications o).2.fs.screenings =
      st.fs.screenings := by
  unfold primAddDoc
  split <;> rfl

@[simp] theorem primAddDoc_notifications_appointments (f : Faults)
    (st : RunState) (o : Obj) :
    (primAddDoc f st .notifications o).2.fs.appointments =
      st.fs.appointments := by
  unfold primAddDoc
  split <;> rfl

@[simp] theorem createNotification_snd_fs_screenings (f : Faults)
    (st : RunState) (rid : JSValue) (ty ti me : String) (da : JSValue) :
    (createNotification f st rid ty ti me da).2.fs.screenings =
      st.fs.screenings := by
  simp [createNotification]

@[simp] theorem createNotification_snd_fs_appointments (f : Faults)
    (st : RunState) (rid : JSValue) (ty ti me : String) (da : JSValue) :
    (createNotification f st rid ty ti me da).2.fs.appointments =
      st.fs.appointments := by
  simp [createNotification]

@[simp] theorem primAddDoc_screenings_patients (f : Faults)
    (st : RunState) (o : Obj) :
    (primAddDoc f st .screenings o).2.fs.patients = st.fs.patients := by
  unfold primAddDoc
  split <;> rfl

theorem getPatient_snd (f : Faults) (st : RunState) (pid : String) :
    (getPatient f st pid).2 = (primGetDoc f st .patients pid).2 := by
  unfold getPatient
  rcases h : primGetDoc f st .patients pid with ⟨r, st'⟩
  rcases r with e | v
  · simp
  · rcases v with _ | d <;> simp

@[simp] theorem getPatient_snd_fs (f : Faults) (st : RunState)
    (pid : String) : (getPatient f st pid).2.fs = st.fs := by
  rw [getPatient_snd]
  simp

@[simp] theorem getScreeningRecord_snd_fs (f : Faults) (st : RunState)
    (sid : String) : (getScreeningRecord f st sid).2.fs = st.fs := by
  simp [getScreeningRecord]

theorem notifyReviewCompletedHCW_screenings (f : Faults) (st : RunState)
    (screeningId patientName : String) (sd : Obj) :
    (notifyReviewCompletedHCW f st screeningId patientName sd).2.fs.screenings
      = st.fs.screenings := by
  unfold notifyReviewCompletedHCW
  split
  · split
    · rfl
    · split
      all_goals
        next heq =>
          have h2 := congrArg (fun p => p.2.fs.screenings) heq
          simp at h2
          exact h2.symm
  · rfl

theorem notifyReviewCompletedPatient_screenings (f : Faults) (st : RunState)
    (screeningId pid : String) :
    (notifyReviewCompletedPatient f st screeningId pid).2.fs.screenings
      = st.fs.screenings := by
  unfold notifyReviewCompletedPatient
  split
  · rfl
  · split
    all_goals
      next heq =>
        have h2 := congrArg (fun p => p.2.fs.screenings) heq
        simp at h2
        exact h2.symm

theorem notifyDoctorAppointmentPatient_appointments (f : Faults)
    (st : RunState) (appointmentData : Obj) (docId : String) :
    (notifyDoctorAppointmentPatient f st appointmentData
        docId).2.fs.appointments = st.fs.appointments := by
  unfold notifyDoctorAppointmentPatient
  split
  · split
    · rfl
    · split
      all_goals
        next heq =>
          have h2 := congrArg (fun p => p.2.fs.appointments) heq
          simp at h2
          exact h2.symm
  · rfl

/-- Under `noFaults`, `createDoctorAppointment` leaves the
`appointments` collection as the old collection with the new document —
the caller's data with `type`, `status` and the timestamps imposed —
appended; the notification steps touch only `notifications`. -/
theorem createDoctorAppointment_appointments (fs : FS) (cs : List Call)
    (apptData : Obj) :
    (createDoctorAppointment noFaults ⟨fs, cs⟩ apptData).2.fs.appointments =
      fs.appointments.add (autoId fs.nextId) (apptData.merge (objOf [
        ("type", .str "doctor"), ("status", .str "Pending"),
        ("createdAt", serverTimestamp fs),
        ("updatedAt", serverTimestamp fs)])) := by
  simp only [createDoctorAppointment, primAddDoc, noFaults_eq,
    Bool.false_eq_true, if_false, FS.getColl]
  rcases hd : apptData "doctorId" with _ | dv
  · dsimp only
    rw [notifyDoctorAppointmentPatient_appointments]
    simp [FS.setColl]
  · dsimp only
    cases hfb : dv.falsy
    · simp only [hfb, Bool.false_eq_true, if_false]
      split
      all_goals
        next heq =>
          have h2 := congrArg (fun p => p.2.fs.appointments) heq
          simp [FS.setColl] at h2
          first
          | (rw [notifyDoctorAppointmentPatient_appointments, ← h2])
          | exact h2.symm
    · simp only [hfb, if_true]
      rw [notifyDoctorAppointmentPatient_appointments]
      simp [FS.setColl]

theorem screeningReviewNotifications_screenings (f : Faults) (st : RunState)
    (screeningId : String) :
    (screeningReviewNotifications f st screeningId).2.fs.screenings
      = st.fs.screenings := by
  unfold screeningReviewNotifications
  rcases h1 : getScreeningRecord f st screeningId with ⟨r1, st2⟩
  have hst2 : st2.fs = st.fs := by
    have h := congrArg (fun p => p.2.fs) h1
    simp at h
    exact h.symm
  rcases r1 with e | osd
  · dsimp only
    rw [hst2]
  · rcases osd with _ | sd
    · dsimp only
      rw [hst2]
    · dsimp only
      rcases hpid : sd "patientId" with _ | v
      · dsimp only
        rw [hst2]
      · cases v with
      | str pid =>
        dsimp only
        rcases h3 : getPatient f st2 pid with ⟨r3, st3⟩
        have hst3 : st3.fs = st2.fs := by
          have h := congrArg (fun p => p.2.fs) h3
          simp at h
          exact h.symm
        rcases r3 with e | pd
        · dsimp only
          rw [hst3, hst2]
        · cases pd with
          | none =>
            dsimp only
            rcases h4 : notifyReviewCompletedHCW f st3 screeningId
                "the patient" sd with ⟨r4, st4⟩
            have hst4 : st4.fs.screenings = st3.fs.screenings := by
              have h := congrArg (fun p => p.2.fs.screenings) h4
              simp only [notifyReviewCompletedHCW_screenings] at h
              exact h.symm
            rcases r4 with e | b
            · rw [hst4, hst3, hst2]
            · rw [notifyReviewCompletedPatient_screenings, hst4, hst3, hst2]
          | some p =>
            dsimp only
            rcases h4 : notifyReviewCompletedHCW f st3 screeningId
                (displayValue (p "name")) sd with ⟨r4, st4⟩
            have hst4 : st4.fs.screenings = st3.fs.screenings := by
              have h := congrArg (fun p => p.2.fs.screenings) h4
              simp only [notifyReviewCompletedHCW_screenings] at h
              exact h.symm
            rcases r4 with e | b
            · rw [hst4, hst3, hst2]
            · rw [notifyReviewCompletedPatient_screenings, hst4, hst3, hst2]
      | int n => dsimp only; rw [hst2]
      | bool b => dsimp only; rw [hst2]
      | null => dsimp only; rw [hst2]
      | time t => dsimp only; rw [hst2]
      | arr l => dsimp only; rw [hst2]
      | obj m => dsimp only; rw [hst2]

/-- C3: image enhancement is pure string concatenation on the image
URL: the transformation string is the comma-separated join of exactly
the non-zero slider parameters in the fixed order `e_brightness`,
`e_contrast`, `e_saturation`, `e_sharpen`; for a URL that splits on
`/upload/` into exactly two parts and at least one non-zero slider, the
preview URL inserts the transformation string after `/upload/`; with
all four sliders at 0, or a URL without exactly one `/upload/`
separator, the preview URL is the original URL unchanged. -/
theorem preview_url_construction (orig p q : String)
    (t : CloudinaryTransformation) :
    transformationString t = String.intercalate "," (transformationParams t) ∧
    (t.brightness = 0 ∧ t.contrast = 0 ∧ t.saturation = 0 ∧ t.sharpness = 0 →
      previewUrl orig t = orig) ∧
    ((jsSplit orig "/upload/").length ≠ 2 → previewUrl orig t = orig) ∧
    (¬(t.brightness = 0 ∧ t.contrast = 0 ∧ t.saturation = 0 ∧
        t.sharpness = 0) →
      jsSplit orig "/upload/" = [p, q] →
      previewUrl orig t =
        p ++ "/upload/" ++ transformationString t ++ "/" ++ q) := by
  refine ⟨transformationString_eq_intercalate t, ?_, ?_, ?_⟩
  · rintro ⟨hb, hc, hs, hsh⟩
    have hts : transformationString t = "" := by
      simp [transformationString, hb, hc, hs, hsh, endsWithComma_empty]
    simp [previewUrl, hts]
  · intro hlen
    simp only [previewUrl]
    split
    · simp [hlen]
    · rfl
  · intro hnz hsplit
    have hne := transformationString_ne_empty t hnz
    simp [previewUrl, hne, hsplit]

/-- Witness for C3 at a concrete Cloudinary URL and slider setting
(brightness 20, contrast -10, saturation 0, sharpness 5). -/
theorem preview_url_construction_witness :
    previewUrl "https://res.cloudinary.com/demo/image/upload/v1/sample.jpg"
      ⟨20, -10, 0, 5⟩ =
      "https://res.cloudinary.com/demo/image/upload/e_brightness:20,e_contrast:-10,e_sharpen:5/v1/sample.jpg" := by
  have h := (preview_url_construction
      "https://res.cloudinary.com/demo/image/upload/v1/sample.jpg"
      "https://res.cloudinary.com/demo/image" "v1/sample.jpg"
      ⟨20, -10, 0, 5⟩).2.2.2 (by decide) (by decide)
  rw [h]
  decide

/-- C2: the confirm function returned by `sendOTP` succeeds with the
current user exactly on the hardcoded code `"123456"`, throws
`"Invalid verification code"` on every other code, and `verifyOTP`
propagates this behaviour, for every phone number. -/
theorem otp_verification_hardcoded (auth : AuthState) (phone : String) :
    verifyOTP (sendOTP auth phone) "123456" = .ok auth.currentUser ∧
    (sendOTP auth phone).confirm "123456" = .ok ⟨auth.currentUser⟩ ∧
    ∀ code : String, code ≠ "123456" →
      verifyOTP (sendOTP auth phone) code = .error "Invalid verification code" ∧
      (sendOTP auth phone).confirm code = .error "Invalid verification code" := by
  refine ⟨rfl, rfl, fun code hcode => ?_⟩
  have h : (code = "123456") = False := by
    simp [hcode]
  constructor
  · simp [verifyOTP, sendOTP, h]
  · simp [sendOTP, h]

/-- Witness for C2 at a concrete phone number and the concrete wrong
code `"000000"`. -/
theorem otp_verification_hardcoded_witness :
    verifyOTP (sendOTP ⟨some "uid1"⟩ "9876543210") "123456" = .ok (some "uid1") ∧
    verifyOTP (sendOTP ⟨some "uid1"⟩ "9876543210") "000000" =
      .error "Invalid verification code" := by
  refine ⟨?_, ?_⟩
  · exact (otp_verification_hardcoded ⟨some "uid1"⟩ "9876543210").1
  · exact ((otp_verification_hardcoded ⟨some "uid1"⟩ "9876543210").2.2
      "000000" (by decide)).1

/-- C7: for every appointment, status and additional data,
`updateAppointmentStatus` changes only the `status` field, the keys
present in `additionalData` and the `updatedAt` timestamp of the
appointment document — every other field of the appointment and every
other appointment document stay unchanged — and it returns `true` on
success. -/
theorem appointment_status_update_frame (fs : FS) (cs : List Call)
    (appointmentId status : String) (additionalData : Obj) (prior : Obj)
    (hdoc : fs.appointments.find appointmentId = some prior) :
    (updateAppointmentStatus noFaults ⟨fs, cs⟩ appointmentId status
        additionalData).1 = .ok true ∧
    ∃ d, (updateAppointmentStatus noFaults ⟨fs, cs⟩ appointmentId status
          additionalData).2.fs.appointments.find appointmentId = some d ∧
      (∀ k, k ≠ "status" → k ≠ "updatedAt" → additionalData k = none →
        d k = prior k) ∧
      (additionalData "status" = none → d "status" = some (.str status)) ∧
      d "updatedAt" = some (.time fs.now) ∧
      (∀ id', id' ≠ appointmentId →
        (updateAppointmentStatus noFaults ⟨fs, cs⟩ appointmentId status
          additionalData).2.fs.appointments.find id' =
          fs.appointments.find id') := by
  simp only [updateAppointmentStatus, primUpdateDoc, noFaults_eq,
    Bool.false_eq_true, if_false, FS.getColl]
  rw [hdoc]
  simp only [RunState.fs_record]
  refine ⟨trivial, ?_⟩
  refine ⟨prior.merge (((objOf [("status", .str status)]).merge
      additionalData).merge (objOf [("updatedAt", serverTimestamp fs)])),
    ?_, ?_, ?_, ?_, ?_⟩
  · simp [FS.setColl]
  · intro k hks hku had
    simp [Obj.merge, objOf_cons, Ne.symm hks, Ne.symm hku, had]
  · intro had
    simp [Obj.merge, objOf_cons, had]
  · simp [Obj.merge, objOf_cons, serverTimestamp]
  · intro id' hid
    simp [FS.setColl, Coll.find_set_ne _ _ _ _ hid]

/-- Witness for C7: a concrete state with an existing appointment. -/
theorem appointment_status_update_frame_witness :
    sampleFS.appointments.find "a1" = some sampleAppointment ∧
    (updateAppointmentStatus noFaults ⟨sampleFS, []⟩ "a1" "Accepted"
        Obj.empty).1 = .ok true := by
  refine ⟨rfl, ?_⟩
  exact (appointment_status_update_frame sampleFS [] "a1" "Accepted"
    Obj.empty sampleAppointment rfl).1

/-- C1: for every screening id, review status, doctor comments and
doctor id, `updateScreeningReview` writes exactly those three values to
the `reviewStatus`, `doctorComments` and `doctorId` fields of the
screening document and sets its `status` field to `'Reviewed'`,
regardless of the screening's prior status (and prior contents). -/
theorem screening_review_writes_review_fields (fs : FS) (cs : List Call)
    (screeningId reviewStatus doctorComments doctorId : String) (prior : Obj)
    (hdoc : fs.screenings.find screeningId = some prior) :
    ∃ d, (updateScreeningReview noFaults ⟨fs, cs⟩ screeningId reviewStatus
        doctorComments doctorId).2.fs.screenings.find screeningId = some d ∧
      d "reviewStatus" = some (.str reviewStatus) ∧
      d "doctorComments" = some (.str doctorComments) ∧
      d "doctorId" = some (.str doctorId) ∧
      d "status" = some (.str "Reviewed") := by
  refine ⟨prior.merge (objOf [
      ("reviewStatus", .str reviewStatus),
      ("doctorComments", .str doctorComments),
      ("doctorId", .str doctorId),
      ("status", .str "Reviewed"),
      ("updatedAt", serverTimestamp fs)]), ?_, ?_, ?_, ?_, ?_⟩
  · simp only [updateScreeningReview, primUpdateDoc, noFaults_eq,
      Bool.false_eq_true, if_false, FS.getColl]
    rw [hdoc]
    dsimp only
    rw [screeningReviewNotifications_screenings]
    simp [FS.setColl]
  · simp [Obj.merge, objOf_cons]
  · simp [Obj.merge, objOf_cons]
  · simp [Obj.merge, objOf_cons]
  · simp [Obj.merge, objOf_cons]

/-- Witness for C1: the sample screening `s1` reviewed as `Normal`. -/
theorem screening_review_writes_review_fields_witness :
    sampleFS.screenings.find "s1" = some sampleScreening ∧
    ∃ d, (updateScreeningReview noFaults ⟨sampleFS, []⟩ "s1" "Normal"
        "all clear" "u1").2.fs.screenings.find "s1" = some d ∧
      d "reviewStatus" = some (.str "Normal") ∧
      d "doctorComments" = some (.str "all clear") ∧
      d "doctorId" = some (.str "u1") ∧
      d "status" = some (.str "Reviewed") := by
  refine ⟨rfl, ?_⟩
  exact screening_review_writes_review_fields sampleFS [] "s1" "Normal"
    "all clear" "u1" sampleScreening rfl

/-- C6: no partial-failure recovery: if the initial `updateDoc` of
`updateScreeningReview` succeeds (the first backend call is not
faulted) and the run then throws, the error is propagated to the caller
and the screening document keeps the already-written review fields and
`'Reviewed'` status — nothing is rolled back. -/
theorem screening_review_partial_failure (fs : FS) (f : Faults)
    (screeningId reviewStatus doctorComments doctorId : String) (prior : Obj)
    (hdoc : fs.screenings.find screeningId = some prior)
    (hf0 : f 0 = false) (e : String) (st' : RunState)
    (hrun : updateScreeningReview f ⟨fs, []⟩ screeningId reviewStatus
        doctorComments doctorId = (.error e, st')) :
    ∃ d, st'.fs.screenings.find screeningId = some d ∧
      d "reviewStatus" = some (.str reviewStatus) ∧
      d "doctorComments" = some (.str doctorComments) ∧
      d "doctorId" = some (.str doctorId) ∧
      d "status" = some (.str "Reviewed") := by
  simp only [updateScreeningReview, primUpdateDoc, List.length_nil, hf0,
    Bool.false_eq_true, if_false, FS.getColl] at hrun
  rw [hdoc] at hrun
  dsimp only at hrun
  have hscr := congrArg (fun p => p.2.fs.screenings) hrun
  simp only [screeningReviewNotifications_screenings] at hscr
  refine ⟨prior.merge (objOf [
      ("reviewStatus", .str reviewStatus),
      ("doctorComments", .str doctorComments),
      ("doctorId", .str doctorId),
      ("status", .str "Reviewed"),
      ("updatedAt", serverTimestamp fs)]), ?_, ?_, ?_, ?_, ?_⟩
  · rw [← hscr]
    simp [FS.setColl]
  · simp [Obj.merge, objOf_cons]
  · simp [Obj.merge, objOf_cons]
  · simp [Obj.merge, objOf_cons]
  · simp [Obj.merge, objOf_cons]

/-- Witness for C6: with a fault oracle that fails every call after the
first one, the run throws, yet the review fields are in place. -/
theorem screening_review_partial_failure_witness :
    ∃ d, (updateScreeningReview (fun n => decide (1 ≤ n)) ⟨sampleFS, []⟩
        "s1" "Normal" "all clear" "u1").2.fs.screenings.find "s1" =
          some d ∧
      d "reviewStatus" = some (.str "Normal") ∧
      d "doctorComments" = some (.str "all clear") ∧
      d "doctorId" = some (.str "u1") ∧
      d "status" = some (.str "Reviewed") :=
  screening_review_partial_failure sampleFS (fun n => decide (1 ≤ n))
    "s1" "Normal" "all clear" "u1" sampleScreening rfl rfl
    backendError _ rfl

/-- C9: `generatePatientId` returns `PT-`, the current year, a hyphen,
and the patient count plus one rendered in decimal and left-padded with
zeros to at least 5 digits; the result depends only on the number of
patient documents (and the year), not on their contents. -/
theorem generate_patient_id_format (fs fs' : FS) (cs cs' : List Call) :
    (generatePatientId noFaults ⟨fs, cs⟩).1 =
      .ok ("PT-" ++ toString fs.year ++ "-" ++
        padStart (toString (fs.patients.length + 1)) 5 '0') ∧
    (fs.patients.length = fs'.patients.length → fs.year = fs'.year →
      (generatePatientId noFaults ⟨fs, cs⟩).1 =
        (generatePatientId noFaults ⟨fs', cs'⟩).1) := by
  constructor
  · simp [generatePatientId, primGetAll, FS.getColl]
  · intro hlen hyear
    simp [generatePatientId, primGetAll, FS.getColl, hlen, hyear]

/-- Witness for C9: `sampleFS` holds one patient, so the next id is
`PT-2026-00002`; `sampleFS2` holds one (different) patient document and
yields the same id. -/
theorem generate_patient_id_format_witness :
    (generatePatientId noFaults ⟨sampleFS, []⟩).1 = .ok "PT-2026-00002" ∧
    (generatePatientId noFaults ⟨sampleFS, []⟩).1 =
      (generatePatientId noFaults ⟨sampleFS2, []⟩).1 := by
  constructor
  · rw [(generate_patient_id_format sampleFS sampleFS [] []).1]
    rfl
  · exact (generate_patient_id_format sampleFS sampleFS2 [] []).2 rfl rfl

/-- C10: `getPatientWithDefaults` substitutes its fallback values only
for fields entirely absent from the patient document: every stored
field — even one holding a falsy value such as `""` or `0` — is
returned as stored, because the raw data is spread over the computed
defaults last; when the patient document does not exist the function
returns `null`. -/
theorem patient_defaults_only_for_absent_fields (fs : FS) (cs : List Call)
    (patientId : String) :
    (∀ data, fs.patients.find patientId = some data →
      ∃ res, (getPatientWithDefaults noFaults ⟨fs, cs⟩ patientId).1 =
          .ok (some res) ∧
        (∀ k v, data k = some v → res k = some v) ∧
        (data "name" = none → res "name" = some (.str "Unknown")) ∧
        (data "email" = none → res "email" = some (.str "Not provided")) ∧
        (data "address" = none → res "address" = some (.str "Not provided")) ∧
        (data "symptoms" = none → res "symptoms" = some (.arr []))) ∧
    (fs.patients.find patientId = none →
      (getPatientWithDefaults noFaults ⟨fs, cs⟩ patientId).1 = .ok none) := by
  constructor
  · intro data hdoc
    simp only [getPatientWithDefaults, primGetDoc, noFaults_eq,
      Bool.false_eq_true, if_false, FS.getColl]
    rw [hdoc]
    dsimp only
    refine ⟨_, rfl, ?_, ?_, ?_, ?_, ?_⟩
    · intro k v hkv
      exact Obj.merge_apply_of_some hkv _
    · intro h
      rw [Obj.merge_apply_of_none h]
      simp [objOf_cons, jsOr, h]
    · intro h
      rw [Obj.merge_apply_of_none h]
      simp [objOf_cons, jsOr, h]
    · intro h
      rw [Obj.merge_apply_of_none h]
      simp [objOf_cons, jsOr, h]
    · intro h
      rw [Obj.merge_apply_of_none h]
      simp [objOf_cons, jsOr, h]
  · intro hnone
    simp only [getPatientWithDefaults, primGetDoc, noFaults_eq,
      Bool.false_eq_true, if_false, FS.getColl]
    rw [hnone]

/-- Witness for C10: `samplePatient` stores `email` as the falsy empty
string and `age` as the falsy `0`, both returned as stored; its absent
`address` field gets the fallback; a missing id yields `null`. -/
theorem patient_defaults_only_for_absent_fields_witness :
    (getPatientWithDefaults noFaults ⟨sampleFS, []⟩ "zz").1 = .ok none ∧
    ∃ res, (getPatientWithDefaults noFaults ⟨sampleFS, []⟩ "p1").1 =
        .ok (some res) ∧
      res "email" = some (.str "") ∧
      res "age" = some (.int 0) ∧
      res "address" = some (.str "Not provided") := by
  refine ⟨(patient_defaults_only_for_absent_fields sampleFS [] "zz").2 rfl,
    ?_⟩
  obtain ⟨res, hres, hstored, _, _, haddr, _⟩ :=
    (patient_defaults_only_for_absent_fields sampleFS [] "p1").1
      samplePatient rfl
  exact ⟨res, hres, hstored "email" (.str "") rfl,
    hstored "age" (.int 0) rfl, haddr rfl⟩

/-- C8: `checkUserExists` never returns a boolean: for every email and
every backend state it throws the TypeError produced by invoking the
absent `get` method of the modular Query value, before any backend call
is made (the state, including the call trace, is untouched). -/
theorem check_user_exists_always_throws (f : Faults) (st : RunState)
    (email : String) :
    checkUserExists f st email =
      (.error "TypeError: get is not a function", st) := rfl

/-- C4 counterexample: `saveUserData` for a `Patient` is an exported
data-access operation of the firestore service, yet one execution
performs three backend calls (a collection read for the id counter, the
user-document write, and the patient-record create), not exactly one. -/
theorem single_call_claim_counterexample :
    (saveUserData noFaults ⟨sampleFS, []⟩ "u9" "Nili" "n@x.com" "123"
        "Patient").2.calls =
      [.readColl .patients, .writeDoc .users "u9", .createDoc .patients] ∧
    (saveUserData noFaults ⟨sampleFS, []⟩ "u9" "Nili" "n@x.com" "123"
        "Patient").2.calls.length ≠ 1 := by
  exact ⟨rfl, by decide⟩

/-- C4 amended: not every exported data-access operation is a single
backend call.  The simple wrappers — `getUserData`, `updateUserData`,
`savePatient`, `getPatient`, `getScreeningRecord`,
`createNotification`, `updateScreeningImage`,
`updateAppointmentStatus`, `createAppointment`, `generatePatientId`,
and `saveUserData` for a non-`Patient` role — each perform exactly one
direct backend call, but `saveUserData` for a `Patient` performs three,
and `createScreeningRecord` performs three when the screening's patient
exists. -/
theorem backend_call_counts (fs : FS) (cs : List Call)
    (userId pid sid aid status url nm em ph role ty ti me : String)
    (data ad pdata adata sdata pdoc : Obj) (rid : JSValue) (da : JSValue) :
    (getUserData noFaults ⟨fs, cs⟩ userId).2.calls.length =
      cs.length + 1 ∧
    (updateUserData noFaults ⟨fs, cs⟩ userId data).2.calls.length =
      cs.length + 1 ∧
    (savePatient noFaults ⟨fs, cs⟩ pdata).2.calls.length = cs.length + 1 ∧
    (getPatient noFaults ⟨fs, cs⟩ pid).2.calls.length = cs.length + 1 ∧
    (getScreeningRecord noFaults ⟨fs, cs⟩ sid).2.calls.length =
      cs.length + 1 ∧
    (createNotification noFaults ⟨fs, cs⟩ rid ty ti me da).2.calls.length =
      cs.length + 1 ∧
    (updateScreeningImage noFaults ⟨fs, cs⟩ sid url).2.calls.length =
      cs.length + 1 ∧
    (updateAppointmentStatus noFaults ⟨fs, cs⟩ aid status ad).2.calls.length =
      cs.length + 1 ∧
    (createAppointment noFaults ⟨fs, cs⟩ adata).2.calls.length =
      cs.length + 1 ∧
    (generatePatientId noFaults ⟨fs, cs⟩).2.calls.length = cs.length + 1 ∧
    (role ≠ "Patient" →
      (saveUserData noFaults ⟨fs, cs⟩ userId nm em ph role).2.calls.length =
        cs.length + 1) ∧
    (saveUserData noFaults ⟨fs, cs⟩ userId nm em ph
        "Patient").2.calls.length = cs.length + 3 ∧
    (sdata "patientId" = some (.str pid) → pid ≠ "" →
      fs.patients.find pid = some pdoc →
      (createScreeningRecord noFaults ⟨fs, cs⟩ sdata).2.calls.length =
        cs.length + 3) := by
  refine ⟨?_, ?_, ?_, ?_, ?_, ?_, ?_, ?_, ?_, ?_, ?_, ?_, ?_⟩
  · simp [getUserData, primGetDoc]
  · simp only [updateUserData, primUpdateDoc, noFaults_eq,
      Bool.false_eq_true, if_false, FS.getColl]
    rcases h : fs.users.find userId with _ | d <;> simp
  · simp [savePatient, primAddDoc]
  · simp only [getPatient, primGetDoc, noFaults_eq, Bool.false_eq_true,
      if_false, FS.getColl]
    rcases h : fs.patients.find pid with _ | d <;> simp
  · simp [getScreeningRecord, primGetDoc]
  · simp [createNotification, primAddDoc]
  · simp only [updateScreeningImage, primUpdateDoc, noFaults_eq,
      Bool.false_eq_true, if_false, FS.getColl]
    rcases h : fs.screenings.find sid with _ | d <;> simp
  · simp only [updateAppointmentStatus, primUpdateDoc, noFaults_eq,
      Bool.false_eq_true, if_false, FS.getColl]
    rcases h : fs.appointments.find aid with _ | d <;> simp
  · simp [createAppointment, primAddDoc]
  · simp [generatePatientId, primGetAll]
  · intro hrole
    simp [saveUserData, hrole, primSetDoc]
  · simp [saveUserData, generatePatientId, primGetAll, primSetDoc,
      primAddDoc]
  · intro h1 h2 h3
    simp only [createScreeningRecord, primAddDoc, noFaults_eq,
      Bool.false_eq_true, if_false, FS.getColl]
    rw [h1]
    dsimp only
    simp only [h2, ite_false, if_false]
    simp only [getPatient, primGetDoc, noFaults_eq, Bool.false_eq_true,
      if_false, FS.getColl]
    simp only [RunState.fs_record, FS.setColl]
    rw [h3]
    dsimp only
    simp [createNotification, primAddDoc]

/-- Witness for C4's amended theorem at the sample state. -/
theorem backend_call_counts_witness :
    ("Doctor" : String) ≠ "Patient" ∧
    (saveUserData noFaults ⟨sampleFS, []⟩ "u9" "Asha" "a@x.com" "9"
        "Doctor").2.calls.length = 1 ∧
    sampleScreening "patientId" = some (.str "p1") ∧
    sampleFS.patients.find "p1" = some samplePatient ∧
    (createScreeningRecord noFaults ⟨sampleFS, []⟩
        sampleScreening).2.calls.length = 3 := by
  have h := backend_call_counts sampleFS [] "u9" "p1" "s1" "a1" "Accepted"
    "u" "Asha" "a@x.com" "9" "Doctor" "t" "T" "M" Obj.empty Obj.empty
    Obj.empty Obj.empty sampleScreening samplePatient (.str "u1") (.obj [])
  refine ⟨by decide, ?_, rfl, rfl, ?_⟩
  · exact h.2.2.2.2.2.2.2.2.2.2.1 (by decide)
  · exact h.2.2.2.2.2.2.2.2.2.2.2.2 rfl (by decide) rfl

/-- C5 counterexample: `createNotification` stores `read: false`, a
field value imposed by the code — the record actually stored differs at
the key `read` from the caller-provided data plus the `createdAt`
timestamp; and `createDoctorAppointment` imposes `status: 'Pending'`
even when the caller supplies a different status. -/
theorem create_imposes_fields_counterexample :
    ((createNotification noFaults ⟨sampleFS, []⟩ (.str "u1") "system" "T"
        "M" (.obj [])).2.fs.notifications.getLast?.map
        (fun p => p.2 "read")) = some (some (.bool false)) ∧
    (objOf [("recipientId", .str "u1"), ("type", .str "system"),
        ("title", .str "T"), ("message", .str "M"), ("data", .obj []),
        ("createdAt", .time 100)]) "read" = none ∧
    ((createDoctorAppointment noFaults ⟨sampleFS, []⟩ (objOf [
        ("patientId", .str "p1"), ("patientName", .str "Meena"),
        ("doctorId", .str "u1"), ("status", .str "Confirmed")])
        ).2.fs.appointments.getLast?.map (fun p => p.2 "status")) =
      some (some (.str "Pending")) := by
  exact ⟨rfl, rfl, rfl⟩

/-- C5 amended: create operations store the caller-provided data plus
timestamps, except that some impose fixed field values: `savePatient`
imposes nothing beyond the timestamps, while `createNotification` sets
`read: false`, `createAppointment` sets `type: 'screening'`, and
`createDoctorAppointment` sets `type: 'doctor'` and `status: 'Pending'`
(overriding the caller), leaving all other caller-provided fields
intact. -/
theorem create_operations_stored_fields (fs : FS) (cs : List Call)
    (patientData apptData : Obj) (rid : JSValue) (ty ti me : String)
    (da : JSValue) :
    (∀ k, ((savePatient noFaults ⟨fs, cs⟩
        patientData).2.fs.patients.getLast?.map (fun p => p.2 k)) =
      some ((patientData.merge (objOf [("createdAt", .time fs.now),
        ("updatedAt", .time fs.now)])) k)) ∧
    ((createNotification noFaults ⟨fs, cs⟩ rid ty ti me
        da).2.fs.notifications.getLast?.map (fun p => p.2 "read")) =
      some (some (.bool false)) ∧
    ((createAppointment noFaults ⟨fs, cs⟩
        apptData).2.fs.appointments.getLast?.map (fun p => p.2 "type")) =
      some (some (.str "screening")) ∧
    (∃ stored, (createDoctorAppointment noFaults ⟨fs, cs⟩
        apptData).2.fs.appointments.getLast? =
          some (autoId fs.nextId, stored) ∧
      stored "type" = some (.str "doctor") ∧
      stored "status" = some (.str "Pending") ∧
      (∀ k, k ≠ "type" → k ≠ "status" → k ≠ "createdAt" →
        k ≠ "updatedAt" → stored k = apptData k)) := by
  refine ⟨?_, ?_, ?_, ?_⟩
  · intro k
    simp [savePatient, primAddDoc, FS.setColl, serverTimestamp]
  · simp [createNotification, primAddDoc, FS.setColl, Obj.merge,
      objOf_cons]
  · simp [createAppointment, primAddDoc, FS.setColl, Obj.merge,
      objOf_cons]
  · refine ⟨apptData.merge (objOf [("type", .str "doctor"),
      ("status", .str "Pending"), ("createdAt", serverTimestamp fs),
      ("updatedAt", serverTimestamp fs)]), ?_, ?_, ?_, ?_⟩
    · rw [createDoctorAppointment_appointments]
      simp
    · simp [Obj.merge, objOf_cons]
    · simp [Obj.merge, objOf_cons]
    · intro k h1 h2 h3 h4
      rw [Obj.merge_apply_of_none]
      simp [objOf_cons, Ne.symm h1, Ne.symm h2, Ne.symm h3, Ne.symm h4]

/-- Witness for C5's amended theorem: a patient record stored by
`savePatient` keeps the caller's `name` and gains only timestamps, and
a doctor appointment keeps the caller's `patientId`. -/
theorem create_operations_stored_fields_witness :
    ((savePatient noFaults ⟨sampleFS, []⟩ (objOf [("name", .str "Lata")])
        ).2.fs.patients.getLast?.map (fun p => p.2 "name")) =
      some (some (.str "Lata")) ∧
    ∃ stored, (createDoctorAppointment noFaults ⟨sampleFS, []⟩ (objOf [
        ("patientId", .str "p1")])).2.fs.appointments.getLast? =
          some (autoId 0, stored) ∧
      stored "status" = some (.str "Pending") ∧
      stored "patientId" = some (.str "p1") := by
  have h := create_operations_stored_fields sampleFS []
    (objOf [("name", .str "Lata")]) (objOf [("patientId", .str "p1")])
    (.str "u1") "t" "T" "M" (.obj [])
  obtain ⟨stored, hlast, _, hstatus, hframe⟩ := h.2.2.2
  refine ⟨?_, stored, hlast, hstatus, ?_⟩
  · rw [h.1 "name"]
    rfl
  · rw [hframe "patientId" (by decide) (by decide) (by decide) (by decide)]
    rfl

end CerviHealth
